import Mathlib

/-!
Shallow embedding of the Phase B statutory compliance engine
(src/phase_analysis/models.py, src/phase_analysis/phase_b.py) and of the
Magistrates' Court procedure checker (src/victoria_magistrates/court_knowledge.py),
with theorems settling the behavioural claims about them.

Python strings become Lean `String`, `Optional[T]` becomes `Option T`,
lists become `List`, and a `dict` becomes an association list in insertion
order.  Python truthiness of a string `s` is `s ≠ ""`, of a list `l` is
`l ≠ []`.
-/

/-- Tri-state compliance outcome (`ComplianceStatus` in models.py). -/
inductive ComplianceStatus where
  | COMPLIANT
  | UNCLEAR
  | NON_COMPLIANT
deriving DecidableEq, Repr, Inhabited

/-- Presentation colour of a status (the enum value in models.py). -/
def ComplianceStatus.colour : ComplianceStatus → String
  | .COMPLIANT => "GREEN"
  | .UNCLEAR => "YELLOW"
  | .NON_COMPLIANT => "RED"

/-- Defect severity levels (`Severity` in models.py). -/
inductive Severity where
  | HIGH
  | MEDIUM
  | LOW
deriving DecidableEq, Repr, Inhabited

/-- A disclosed witness statement (`WitnessStatement` in models.py). -/
structure WitnessStatement where
  name : String
  signed : Bool
  dated : Bool
  date : Option String := none
deriving DecidableEq, Repr

/-- CPA 2009 disclosure information (`DisclosurePackage` in models.py). -/
structure DisclosurePackage where
  informant_statement_provided : Bool
  witness_statements : List WitnessStatement := []
  prior_convictions_disclosed : Bool := false
  physical_exhibit_list_provided : Bool := false
  exhibits_identified : Bool := false
  exhibit_descriptions_complete : Bool := false
  disclosure_timing_compliant : Option Bool := none
  timing_notes : Option String := none
deriving DecidableEq, Repr

/-- Mandatory disclosure items that are absent, in source order. -/
def DisclosurePackage.missing_mandatory_items (d : DisclosurePackage) : List String :=
  (if d.informant_statement_provided then [] else ["informant statement"]) ++
  (if d.witness_statements = [] then ["witness statements"] else []) ++
  (if d.prior_convictions_disclosed then [] else ["prior convictions history"]) ++
  (if d.physical_exhibit_list_provided then [] else ["physical evidence list"])

/-- Witness names for statements missing signatures or dates. -/
def DisclosurePackage.unsigned_or_undated_statements (d : DisclosurePackage) : List String :=
  (d.witness_statements.filter (fun s => !s.signed || !s.dated)).map (fun s => s.name)

/-- Road Safety Act test information (`PreliminaryTestRecord` in models.py). -/
structure PreliminaryTestRecord where
  statutory_authority : Option String := none
  authority_is_ambiguous : Bool := false
  reason_to_believe_detail : Option String := none
  directions_compliance_language : Bool := false
  directions_documented : Bool := false
  oral_directions_documented : Bool := false
  subject_literate : Bool := true
  proper_performance_indicators : List String := []
  evidentiary_test_compliant : Option Bool := none
  device_approval_number : Option String := none
  calibration_records : List String := []
  maintenance_records : List String := []
  test_time : Option String := none
  driving_time : Option String := none
  time_reference_notes : List String := []
deriving DecidableEq, Repr

/-- Python `s.strip()`: drop leading and trailing whitespace (written over the
character list so that concrete instances reduce in the kernel). -/
def pyStrip (s : String) : String :=
  ⟨((s.data.dropWhile Char.isWhitespace).reverse.dropWhile Char.isWhitespace).reverse⟩

/-- Python `s.lower()`, written over the character list. -/
def pyLower (s : String) : String :=
  ⟨s.data.map Char.toLower⟩

/-- Truthiness of `bool(x and x.strip())` for an optional string field. -/
def optStringPresent : Option String → Bool
  | none => false
  | some s => pyStrip s ≠ ""

def PreliminaryTestRecord.has_reason_to_believe (p : PreliminaryTestRecord) : Bool :=
  optStringPresent p.reason_to_believe_detail

def PreliminaryTestRecord.has_statutory_authority (p : PreliminaryTestRecord) : Bool :=
  optStringPresent p.statutory_authority

def PreliminaryTestRecord.has_proper_performance_indicators (p : PreliminaryTestRecord) : Bool :=
  p.proper_performance_indicators ≠ []

def PreliminaryTestRecord.calibration_complete (p : PreliminaryTestRecord) : Bool :=
  p.calibration_records ≠ [] || p.maintenance_records ≠ []

/-- A potential hearsay item (`HearsayEntry` in models.py). -/
structure HearsayEntry where
  description : String
  exception_claimed : Option String := none
  exception_supported : Bool := false
  business_record : Bool := false
deriving DecidableEq, Repr

/-- Business records exception material (`BusinessRecordEntry` in models.py). -/
structure BusinessRecordEntry where
  description : String
  exception_established : Bool
  foundation_details : Option String := none
deriving DecidableEq, Repr

/-- Evidence Act compliance profile (`EvidenceProfile` in models.py). -/
structure EvidenceProfile where
  hearsay_items : List HearsayEntry := []
  business_records : List BusinessRecordEntry := []
  hearsay_review_documented : Bool := false
  s137_analysis_documented : Bool := false
  s137_prejudice_factors : List String := []
  s138_exclusion_factors : List String := []
  s138_mitigation_steps : List String := []
deriving DecidableEq, Repr

def EvidenceProfile.hearsay_without_exception (e : EvidenceProfile) : List String :=
  (e.hearsay_items.filter
    (fun i => i.exception_claimed.isNone || !i.exception_supported)).map
    (fun i => i.description)

def EvidenceProfile.business_records_without_foundation (e : EvidenceProfile) : List String :=
  (e.business_records.filter (fun r => !r.exception_established)).map
    (fun r => r.description)

def EvidenceProfile.has_unlawful_obtainment_risk (e : EvidenceProfile) : Bool :=
  e.s138_exclusion_factors ≠ [] && e.s138_mitigation_steps = []

/-- Aggregate document attributes (`DocumentProfile` in models.py);
`key_dates` is the dict modelled as an association list in insertion order. -/
structure DocumentProfile where
  name : String
  disclosure : DisclosurePackage
  preliminary_test : PreliminaryTestRecord
  evidence : EvidenceProfile
  statutory_references : List String := []
  facts : List String := []
  procedural_steps : List String := []
  key_dates : List (String × String) := []
  terminology_issues : List String := []
  typographical_issues : List String := []
  contextual_gaps : List String := []
deriving DecidableEq, Repr

/-- Elements of the Python set comprehension for normalised references
(membership is what downstream code uses, so a list with possible
duplicates is an adequate set model). -/
def normaliseSet (l : List String) : List String :=
  (l.filter (fun s => pyStrip s ≠ "")).map (fun s => pyLower (pyStrip s))

def DocumentProfile.normalised_statutory_refs (d : DocumentProfile) : List String :=
  normaliseSet d.statutory_references

def DocumentProfile.normalised_facts (d : DocumentProfile) : List String :=
  normaliseSet d.facts

def DocumentProfile.normalised_procedures (d : DocumentProfile) : List String :=
  normaliseSet d.procedural_steps

/-- Key compliance elements derived from the profile (`material_elements`). -/
def DocumentProfile.material_elements (d : DocumentProfile) : List String :=
  (if d.preliminary_test.has_statutory_authority then ["statutory authority recorded"] else []) ++
  (if d.preliminary_test.has_reason_to_believe then ["reason to believe documented"] else []) ++
  (if d.preliminary_test.directions_compliance_language then ["55D directions language"] else []) ++
  (if d.preliminary_test.directions_documented then ["directions recorded"] else []) ++
  (if d.preliminary_test.oral_directions_documented then ["oral directions given"] else []) ++
  (if d.preliminary_test.has_proper_performance_indicators then ["proper performance indicators"] else []) ++
  (if d.preliminary_test.device_approval_number.getD "" ≠ "" then ["device approval number"] else []) ++
  (if d.preliminary_test.calibration_complete then ["calibration records"] else []) ++
  (if d.preliminary_test.test_time.getD "" ≠ "" then ["test time recorded"] else []) ++
  (if d.preliminary_test.driving_time.getD "" ≠ "" then ["driving time recorded"] else []) ++
  (if d.disclosure.missing_mandatory_items = [] then ["mandatory disclosure complete"] else []) ++
  (if d.disclosure.unsigned_or_undated_statements = [] then ["statements signed and dated"] else []) ++
  (if d.disclosure.exhibits_identified then ["exhibits identified"] else []) ++
  (if d.disclosure.exhibit_descriptions_complete then ["exhibit descriptions complete"] else []) ++
  (if d.evidence.hearsay_without_exception = [] then ["hearsay exceptions satisfied"] else [])

/-- Result of a single statutory compliance check (`CheckStatus`). -/
structure CheckStatus where
  status : ComplianceStatus
  message : String
  missing_items : List String := []
deriving DecidableEq, Repr, Inhabited

/-- Row of the cross-reference matrix (`CrossReferenceRow`). -/
structure CrossReferenceRow where
  statutory_provision : String
  doc_a : CheckStatus
  doc_b : CheckStatus
  discrepancies : String
  action_required : String
deriving DecidableEq, Repr, Inhabited

/-- An identified defect (`Defect` in models.py). -/
structure Defect where
  document : String
  description : String
  severity : Severity
  statutory_reference : Option String := none
deriving DecidableEq, Repr

/-- Defects separated by severity (`DefectReport`). -/
structure DefectReport where
  high : List Defect := []
  medium : List Defect := []
  low : List Defect := []
deriving DecidableEq, Repr

/-- Append a defect to the list matching its severity (`DefectReport.add`). -/
def DefectReport.add (r : DefectReport) (d : Defect) : DefectReport :=
  match d.severity with
  | .HIGH => { r with high := r.high ++ [d] }
  | .MEDIUM => { r with medium := r.medium ++ [d] }
  | .LOW => { r with low := r.low ++ [d] }

/-- Omissions analysis between Doc A and Doc B (`OmissionsReport`);
`targeted_omissions` is the dict modelled as an association list. -/
structure OmissionsReport where
  elements_only_in_a : List String
  statutory_refs_only_in_a : List String
  facts_only_in_a : List String
  procedures_only_in_a : List String
  targeted_omissions : List (String × Bool)
deriving DecidableEq, Repr

/-- Aggregate Phase B output (`PhaseBReport`). -/
structure PhaseBReport where
  cross_reference_matrix : List CrossReferenceRow
  defects : DefectReport
  omissions : OmissionsReport
deriving DecidableEq, Repr

/-- Python " ".join semantics: concatenate with a separator between elements. -/
def joinSep (sep : String) : List String → String
  | [] => ""
  | [x] => x
  | x :: y :: xs => x ++ sep ++ joinSep sep (y :: xs)

/-- Phase B evaluator for CPA_DISCLOSURE (`_disclosure_items` in phase_b.py). -/
def disclosure_items (document : DocumentProfile) : CheckStatus :=
  let missing := document.disclosure.missing_mandatory_items
  if missing ≠ [] then
    { status := .NON_COMPLIANT, message := "Mandatory disclosure items missing",
      missing_items := missing }
  else
    { status := .COMPLIANT, message := "Mandatory disclosure complete" }

/-- Phase B evaluator for CPA_STATEMENTS (`_statement_execution`). -/
def statement_execution (document : DocumentProfile) : CheckStatus :=
  let unsigned := document.disclosure.unsigned_or_undated_statements
  if unsigned ≠ [] then
    { status := .NON_COMPLIANT, message := "Witness statements require signatures/dates",
      missing_items := unsigned }
  else if document.disclosure.witness_statements = [] then
    { status := .UNCLEAR, message := "No witness statements supplied" }
  else
    { status := .COMPLIANT, message := "All witness statements executed" }

/-- Phase B evaluator for CPA_TIMING (`_disclosure_timing`). -/
def disclosure_timing (document : DocumentProfile) : CheckStatus :=
  match document.disclosure.disclosure_timing_compliant with
  | some true => { status := .COMPLIANT, message := "Disclosure served within s.186 timeframe" }
  | some false =>
      let note := match document.disclosure.timing_notes with
        | some s => if s ≠ "" then s else "timing non-compliant"
        | none => "timing non-compliant"
      { status := .NON_COMPLIANT, message := note }
  | none => { status := .UNCLEAR, message := "Disclosure timing not recorded" }

/-- Phase B evaluator for CPA_EXHIBITS (`_exhibit_identification`). -/
def exhibit_identification (document : DocumentProfile) : CheckStatus :=
  if document.disclosure.exhibits_identified then
    if document.disclosure.exhibit_descriptions_complete then
      { status := .COMPLIANT, message := "Exhibits identified and described" }
    else
      { status := .UNCLEAR, message := "Exhibits identified but descriptions incomplete" }
  else if document.disclosure.physical_exhibit_list_provided then
    { status := .NON_COMPLIANT, message := "Exhibit list provided without identifiers" }
  else
    { status := .UNCLEAR, message := "No exhibits disclosed" }

/-- Phase B evaluator for RSA_AUTHORITY (`_statutory_authority`). -/
def statutory_authority (document : DocumentProfile) : CheckStatus :=
  let preliminary := document.preliminary_test
  if preliminary.has_statutory_authority && !preliminary.authority_is_ambiguous then
    { status := .COMPLIANT, message := "Statutory authority recorded" }
  else if preliminary.authority_is_ambiguous && preliminary.has_statutory_authority then
    { status := .UNCLEAR, message := "Authority cited but basis described as ambiguous" }
  else
    { status := .NON_COMPLIANT, message := "Statutory authority for the preliminary test absent" }

/-- Phase B evaluator for RSA_REASON (`_reason_to_believe`). -/
def reason_to_believe (document : DocumentProfile) : CheckStatus :=
  if document.preliminary_test.has_reason_to_believe then
    { status := .COMPLIANT, message := "Reason to believe articulated" }
  else
    { status := .NON_COMPLIANT, message := "No s.49(1) reasonable belief particulars provided" }

/-- Phase B evaluator for RSA_55D1 (`_directions_language`). -/
def directions_language (document : DocumentProfile) : CheckStatus :=
  let preliminary := document.preliminary_test
  let missing :=
    (if !preliminary.directions_compliance_language
       then ["\"in accordance with directions\" language"]
       else []) ++
    (if !preliminary.directions_documented then ["record of directions given"] else [])
  if missing = [] then
    { status := .COMPLIANT, message := "Directions documented per s.55D(1)" }
  else
    { status := .NON_COMPLIANT, message := "Directions compliance not established",
      missing_items := missing }

/-- Phase B evaluator for RSA_55D2 (`_oral_directions`). -/
def oral_directions (document : DocumentProfile) : CheckStatus :=
  let preliminary := document.preliminary_test
  if !preliminary.subject_literate then
    if preliminary.oral_directions_documented then
      { status := .COMPLIANT, message := "Oral directions provided out of caution" }
    else
      { status := .COMPLIANT, message := "Oral directions not mandated" }
  else if preliminary.oral_directions_documented then
    { status := .COMPLIANT, message := "Oral directions documented for literate subject" }
  else
    { status := .NON_COMPLIANT, message := "No record of oral directions for literate subject" }

/-- Phase B evaluator for RSA_55E (`_proper_performance`). -/
def proper_performance (document : DocumentProfile) : CheckStatus :=
  let preliminary := document.preliminary_test
  let missing :=
    (if !preliminary.has_proper_performance_indicators then ["performance indicators"] else []) ++
    (if preliminary.device_approval_number.getD "" = "" then ["device approval number"] else []) ++
    (if !preliminary.calibration_complete then ["calibration/maintenance records"] else [])
  if missing = [] then
    { status := .COMPLIANT, message := "Proper performance established under s.55E" }
  else
    { status := .NON_COMPLIANT, message := "Proper performance information incomplete",
      missing_items := missing }

/-- Phase B evaluator for RSA_55_1 (`_evidentiary_test`). -/
def evidentiary_test (document : DocumentProfile) : CheckStatus :=
  match document.preliminary_test.evidentiary_test_compliant with
  | some true => { status := .COMPLIANT, message := "Evidentiary test requirements met" }
  | some false =>
      { status := .NON_COMPLIANT, message := "Evidentiary test departed from statutory requirements" }
  | none => { status := .UNCLEAR, message := "No evidentiary test information recorded" }

/-- Phase B evaluator for EA_59 (`_hearsay_flagged`). -/
def hearsay_flagged (document : DocumentProfile) : CheckStatus :=
  if document.evidence.hearsay_items ≠ [] || document.evidence.hearsay_review_documented then
    { status := .COMPLIANT, message := "Hearsay issues identified under s.59" }
  else
    { status := .UNCLEAR, message := "No hearsay review documented" }

/-- Phase B evaluator for EA_60_69 (`_hearsay_exceptions`). -/
def hearsay_exceptions (document : DocumentProfile) : CheckStatus :=
  let unsupported := document.evidence.hearsay_without_exception
  if unsupported ≠ [] then
    { status := .NON_COMPLIANT, message := "Hearsay exception not demonstrated",
      missing_items := unsupported }
  else if document.evidence.hearsay_items ≠ [] then
    { status := .COMPLIANT, message := "Hearsay exceptions articulated" }
  else
    { status := .COMPLIANT, message := "No hearsay evidence tendered" }

/-- Phase B evaluator for EA_69 (`_business_records`). -/
def business_records (document : DocumentProfile) : CheckStatus :=
  let unsupported := document.evidence.business_records_without_foundation
  if unsupported ≠ [] then
    { status := .NON_COMPLIANT, message := "Business records exception unsupported",
      missing_items := unsupported }
  else if document.evidence.business_records ≠ [] then
    { status := .COMPLIANT, message := "Business records foundation established" }
  else
    { status := .UNCLEAR, message := "No business records disclosed" }

/-- Phase B evaluator for EA_137 (`_section_137`). -/
def section_137 (document : DocumentProfile) : CheckStatus :=
  if document.evidence.s137_prejudice_factors ≠ [] then
    if document.evidence.s137_analysis_documented then
      { status := .COMPLIANT, message := "s.137 balancing undertaken" }
    else
      { status := .UNCLEAR, message := "s.137 discretion triggered without documented balancing",
        missing_items := document.evidence.s137_prejudice_factors }
  else
    { status := .COMPLIANT, message := "No s.137 prejudice concerns raised" }

/-- Phase B evaluator for EA_138 (`_section_138`). -/
def section_138 (document : DocumentProfile) : CheckStatus :=
  if document.evidence.has_unlawful_obtainment_risk then
    { status := .NON_COMPLIANT, message := "Potentially improperly obtained evidence with no mitigation",
      missing_items := document.evidence.s138_exclusion_factors }
  else if document.evidence.s138_exclusion_factors ≠ [] then
    { status := .UNCLEAR, message := "Improper obtainment issues noted with mitigation",
      missing_items := document.evidence.s138_exclusion_factors }
  else
    { status := .COMPLIANT, message := "No s.138 issues identified" }

/-- A statutory provision descriptor (`StatutoryProvision` in phase_b.py). -/
structure StatutoryProvision where
  key : String
  label : String
  checker : DocumentProfile → CheckStatus

/-- The fixed provision registry (`PROVISIONS` in phase_b.py), in declared order. -/
def PROVISIONS : List StatutoryProvision :=
  [ ⟨"CPA_DISCLOSURE", "CPA 2009 Part 3.3 – Disclosure package", disclosure_items⟩,
    ⟨"CPA_STATEMENTS", "CPA 2009 Part 3.3 – Witness statements executed", statement_execution⟩,
    ⟨"CPA_TIMING", "CPA 2009 s.186 – Disclosure timing", disclosure_timing⟩,
    ⟨"CPA_EXHIBITS", "CPA 2009 Part 3.3 – Exhibit identification", exhibit_identification⟩,
    ⟨"RSA_AUTHORITY", "RSA 1986 s.49(1) – Statutory authority recorded", statutory_authority⟩,
    ⟨"RSA_REASON", "RSA 1986 s.49(1) – Reasonable belief articulated", reason_to_believe⟩,
    ⟨"RSA_55D1", "RSA 1986 s.55D(1) – Directions compliance", directions_language⟩,
    ⟨"RSA_55D2", "RSA 1986 s.55D(2) – Oral directions for literate subject", oral_directions⟩,
    ⟨"RSA_55E", "RSA 1986 s.55E – Proper performance", proper_performance⟩,
    ⟨"RSA_55_1", "RSA 1986 s.55(1) – Evidentiary test compliance", evidentiary_test⟩,
    ⟨"EA_59", "Evidence Act 2008 s.59 – Hearsay flagged", hearsay_flagged⟩,
    ⟨"EA_60_69", "Evidence Act 2008 ss.60-69 – Hearsay exceptions", hearsay_exceptions⟩,
    ⟨"EA_69", "Evidence Act 2008 s.69 – Business records foundation", business_records⟩,
    ⟨"EA_137", "Evidence Act 2008 s.137 – Probative vs prejudicial", section_137⟩,
    ⟨"EA_138", "Evidence Act 2008 s.138 – Improperly obtained evidence", section_138⟩ ]

/-- Per-document evaluation (`_evaluate_document`): the dict comprehension over
the registry, modelled as an association list in registry order. -/
def evaluate_document (document : DocumentProfile) : List (String × CheckStatus) :=
  PROVISIONS.map (fun p => (p.key, p.checker document))

/-- Sorted symmetric set difference used by `_summarise_discrepancies`:
Python computes sorted(set(a) ^ set(b)). -/
def sortedSymmDiff (a b : List String) : List String :=
  (((a.filter (fun x => decide (x ∉ b))) ++ (b.filter (fun x => decide (x ∉ a)))).dedup).insertionSort
    (fun x y => x ≤ y)

/-- Discrepancy summary for one provision row (`_summarise_discrepancies`). -/
def summarise_discrepancies (doc_a doc_b : CheckStatus) : String :=
  let parts :=
    (if doc_a.status ≠ doc_b.status then
       ["Status differs (Doc A: " ++ doc_a.status.colour ++ ", Doc B: " ++ doc_b.status.colour ++ ")"]
     else []) ++
    (let missing_diff := sortedSymmDiff doc_a.missing_items doc_b.missing_items
     if missing_diff ≠ [] then
       ["Missing elements differ: " ++ joinSep ", " missing_diff]
     else [])
  if parts ≠ [] then joinSep "; " parts else "None"

/-- Per-document action string (`_action_required`). -/
def action_required (label : String) (status : CheckStatus) : String :=
  if status.status = .COMPLIANT then ""
  else if status.missing_items ≠ [] then
    let requirement := joinSep ", " status.missing_items
    let verb := if status.status = .NON_COMPLIANT then "obtain" else "clarify"
    label ++ ": " ++ verb ++ " " ++ requirement
  else
    let verb := if status.status = .NON_COMPLIANT then "rectify" else "clarify"
    label ++ ": " ++ verb ++ " " ++ pyLower status.message

/-- Cross-reference matrix construction (`_build_cross_reference`).  Looking a
key up in the evaluation dict returns that provision's checker output, since
registry keys are unique; the comprehension is therefore inlined. -/
def build_cross_reference (doc_a doc_b : DocumentProfile) : List CrossReferenceRow :=
  PROVISIONS.map (fun provision =>
    let status_a := provision.checker doc_a
    let status_b := provision.checker doc_b
    let actions :=
      [action_required "Doc A" status_a, action_required "Doc B" status_b].filter
        (fun action => action ≠ "")
    { statutory_provision := provision.label,
      doc_a := status_a,
      doc_b := status_b,
      discrepancies := summarise_discrepancies status_a status_b,
      action_required := if actions ≠ [] then joinSep " | " actions else "None" })

/-- Bool test that a character list starts with another character list. -/
def startsWithChars : List Char → List Char → Bool
  | [], _ => true
  | _ :: _, [] => false
  | c :: cs, d :: ds => c == d && startsWithChars cs ds

/-- Bool test that a character list occurs contiguously inside another. -/
def hasSubstrChars (needle : List Char) : List Char → Bool
  | [] => startsWithChars needle []
  | c :: rest => startsWithChars needle (c :: rest) || hasSubstrChars needle rest

/-- Python `token in lowered` substring test. -/
def containsToken (hay needle : String) : Bool :=
  hasSubstrChars needle.data hay.data

/-- The vagueness tokens of `_detect_vague_temporal_references`. -/
def vagueTokens : List String := ["approx", "about", "circa", "unknown", "around"]

/-- Vague temporal reference detection (`_detect_vague_temporal_references`). -/
def detect_vague_temporal_references (preliminary : PreliminaryTestRecord) : Bool :=
  let candidates :=
    ([preliminary.test_time, preliminary.driving_time].filterMap id).filter (fun s => s ≠ "")
  candidates.any (fun entry => vagueTokens.any (fun token => containsToken (pyLower entry) token))
    || preliminary.time_reference_notes ≠ []

/-- The fixed core procedural steps of `_identify_doc_defects`, listed in the
sorted order Python's `sorted` produces over the set literal. -/
def coreSteps : List String :=
  ["directions provided", "results recorded", "test administered", "vehicle stop"]

/-- Per-document defect battery (`_identify_doc_defects`), in source order. -/
def identify_doc_defects (d : DocumentProfile) : List Defect :=
  let name := d.name
  let prelim := d.preliminary_test
  let disclosure := d.disclosure
  let evidence := d.evidence
  (if !prelim.has_statutory_authority then
     [⟨name, "Missing statutory authority for preliminary test", .HIGH, some "RSA 1986 s.49(1)"⟩]
   else []) ++
  (if !prelim.has_reason_to_believe then
     [⟨name, "Absent reason to believe justification", .HIGH, some "RSA 1986 s.49(1)"⟩]
   else []) ++
  (if !prelim.directions_documented then
     [⟨name, "No evidence of directions given", .HIGH, some "RSA 1986 s.55D"⟩]
   else []) ++
  (if !prelim.has_proper_performance_indicators then
     [⟨name, "Missing proper performance indicators", .HIGH, some "RSA 1986 s.55E"⟩]
   else []) ++
  (let unsigned := disclosure.unsigned_or_undated_statements
   if unsigned ≠ [] then
     [⟨name, "Unsigned/undated witness statements: " ++ joinSep ", " unsigned, .HIGH,
       some "CPA 2009 Part 3.3"⟩]
   else []) ++
  (let mandatory_missing := disclosure.missing_mandatory_items
   if mandatory_missing ≠ [] then
     [⟨name, "Missing mandatory disclosure items: " ++ joinSep ", " mandatory_missing, .HIGH,
       some "CPA 2009 Part 3.3"⟩]
   else []) ++
  (let hearsay := evidence.hearsay_without_exception
   if hearsay ≠ [] then
     [⟨name, "Hearsay without exception: " ++ joinSep ", " hearsay, .HIGH,
       some "Evidence Act 2008"⟩]
   else []) ++
  (if evidence.has_unlawful_obtainment_risk then
     [⟨name, "Indicators of unlawfully obtained evidence", .HIGH, some "Evidence Act 2008 s.138"⟩]
   else []) ++
  (if detect_vague_temporal_references prelim then
     [⟨name, "Vague temporal references in test chronology", .MEDIUM, some "RSA 1986"⟩]
   else []) ++
  (if prelim.authority_is_ambiguous then
     [⟨name, "Ambiguous authority claims", .MEDIUM, some "RSA 1986 s.49"⟩]
   else []) ++
  (let missing_steps := coreSteps.filter (fun s => decide (s ∉ d.normalised_procedures))
   if missing_steps ≠ [] then
     [⟨name, "Incomplete procedural description (missing: " ++ joinSep ", " missing_steps ++ ")",
       .MEDIUM, none⟩]
   else []) ++
  (if disclosure.physical_exhibit_list_provided && !disclosure.exhibit_descriptions_complete then
     [⟨name, "Missing exhibit descriptions", .MEDIUM, some "CPA 2009 Part 3.3"⟩]
   else []) ++
  (if d.typographical_issues ≠ [] then
     [⟨name, "Typographical ambiguities: " ++ joinSep ", " d.typographical_issues, .LOW, none⟩]
   else []) ++
  (if d.terminology_issues ≠ [] then
     [⟨name, "Unclear terminology: " ++ joinSep ", " d.terminology_issues, .LOW, none⟩]
   else []) ++
  (if d.contextual_gaps ≠ [] then
     [⟨name, "Incomplete contextual details: " ++ joinSep ", " d.contextual_gaps, .LOW, none⟩]
   else [])

/-- Sorted list of keys present in both key-dates dicts:
Python's sorted(set(doc_a.key_dates) & set(doc_b.key_dates)). -/
def shared_date_keys (doc_a doc_b : DocumentProfile) : List String :=
  (((doc_a.key_dates.map Prod.fst).filter
      (fun k => decide (k ∈ doc_b.key_dates.map Prod.fst))).dedup).insertionSort
    (fun x y => x ≤ y)

/-- The cross-document date defect for one key and the two values. -/
def crossDateDefect (k date_a date_b : String) : Defect :=
  ⟨"Doc A & Doc B",
   "Inconsistent " ++ k ++ " date: Doc A " ++ date_a ++ " vs Doc B " ++ date_b,
   .MEDIUM, none⟩

/-- Cross-document date comparison loop of `_identify_defects`, instrumented
with the originating key so per-key counting is expressible. -/
def cross_date_entries (doc_a doc_b : DocumentProfile) : List (String × Defect) :=
  (shared_date_keys doc_a doc_b).filterMap (fun k =>
    match doc_a.key_dates.lookup k, doc_b.key_dates.lookup k with
    | some date_a, some date_b =>
        if date_a ≠ "" ∧ date_b ≠ "" ∧ date_a ≠ date_b then
          some (k, crossDateDefect k date_a date_b)
        else none
    | _, _ => none)

/-- Defect aggregation (`_identify_defects`): per-document batteries for A then
B, then the cross-document date defects, accumulated through `DefectReport.add`. -/
def identify_defects (doc_a doc_b : DocumentProfile) : DefectReport :=
  let r0 : DefectReport := {}
  let r1 := (identify_doc_defects doc_a).foldl DefectReport.add r0
  let r2 := (identify_doc_defects doc_b).foldl DefectReport.add r1
  ((cross_date_entries doc_a doc_b).map Prod.snd).foldl DefectReport.add r2

/-- Sorted set difference a-minus-b used by `_omissions`. -/
def sortedSetDiff (a b : List String) : List String :=
  ((a.filter (fun x => decide (x ∉ b))).dedup).insertionSort (fun x y => x ≤ y)

/-- Identity coercion of `_targeted_omission`. -/
def targeted_omission (flag : Bool) : Bool := flag

/-- Omissions analysis (`_omissions`). -/
def omissions (doc_a doc_b : DocumentProfile) : OmissionsReport :=
  { elements_only_in_a := sortedSetDiff doc_a.material_elements doc_b.material_elements,
    statutory_refs_only_in_a :=
      sortedSetDiff doc_a.normalised_statutory_refs doc_b.normalised_statutory_refs,
    facts_only_in_a := sortedSetDiff doc_a.normalised_facts doc_b.normalised_facts,
    procedures_only_in_a := sortedSetDiff doc_a.normalised_procedures doc_b.normalised_procedures,
    targeted_omissions :=
      [ ("s55d_in_accordance_language",
         targeted_omission (doc_a.preliminary_test.directions_compliance_language
           && !doc_b.preliminary_test.directions_compliance_language)),
        ("s49_reason_to_believe",
         targeted_omission (doc_a.preliminary_test.has_reason_to_believe
           && !doc_b.preliminary_test.has_reason_to_believe)),
        ("s55e_device_approval_number",
         targeted_omission ((doc_a.preliminary_test.device_approval_number.getD "" ≠ "")
           && !(doc_b.preliminary_test.device_approval_number.getD "" ≠ ""))),
        ("s55e_calibration_records",
         targeted_omission (doc_a.preliminary_test.calibration_complete
           && !doc_b.preliminary_test.calibration_complete)),
        ("test_vs_drive_time_alignment",
         targeted_omission ((doc_a.preliminary_test.test_time.getD "" ≠ ""
             && doc_a.preliminary_test.driving_time.getD "" ≠ "")
           && !(doc_b.preliminary_test.test_time.getD "" ≠ ""
             && doc_b.preliminary_test.driving_time.getD "" ≠ ""))) ] }

/-- Full Phase B pipeline (`build_phase_b_report`). -/
def build_phase_b_report (doc_a doc_b : DocumentProfile) : PhaseBReport :=
  { cross_reference_matrix := build_cross_reference doc_a doc_b,
    defects := identify_defects doc_a doc_b,
    omissions := omissions doc_a doc_b }

/-- Single checklist requirement (`ChecklistItem` in court_knowledge.py). -/
structure ChecklistItem where
  key : String
  description : String
  statute : Option String := none
  notes : Option String := none
deriving DecidableEq, Repr

/-- A stage of Magistrates' Court procedure (`ProcedureStage`). -/
structure ProcedureStage where
  name : String
  items : List ChecklistItem
deriving DecidableEq, Repr

/-- `CONTEST_MENTION_STAGE` constant of court_knowledge.py. -/
def CONTEST_MENTION_STAGE : ProcedureStage :=
  ⟨"contest_mention",
   [ ⟨"charge_sheet_filed", "Prosecution filed charge sheet",
      some "Criminal Procedure Act 2009 (Vic) s.6", none⟩,
     ⟨"disclosure_provided_in_time", "Disclosure provided within timeframes",
      some "Criminal Procedure Act 2009 (Vic) s.186", none⟩,
     ⟨"defence_plea_indicated", "Defence indicated plea", none, none⟩,
     ⟨"defence_notice_of_defences", "Defence provided notice of defences",
      some "Criminal Procedure Act 2009 (Vic) s.185", none⟩ ]⟩

/-- `SUMMARY_CASE_CONFERENCE` constant of court_knowledge.py. -/
def SUMMARY_CASE_CONFERENCE : ProcedureStage :=
  ⟨"summary_case_conference",
   [ ⟨"issues_identified", "Issues identified and narrowed", none, none⟩,
     ⟨"admissions_made", "Admissions made", none, none⟩,
     ⟨"disclosure_complete", "Disclosure complete", none, none⟩ ]⟩

/-- `SUMMARY_HEARING_STAGE` constant of court_knowledge.py. -/
def SUMMARY_HEARING_STAGE : ProcedureStage :=
  ⟨"summary_hearing",
   [ ⟨"prosecution_case_outline", "Prosecution case outline filed", none, none⟩,
     ⟨"witness_availability_confirmed", "Witness availability confirmed", none, none⟩,
     ⟨"voir_dire_foreshadowed", "Voir dire applications foreshadowed", none, none⟩ ]⟩

/-- The `stages` dict of `MagistratesCourtProcedureChecker.__init__`, keyed by
stage name in insertion order. -/
def procedureStages : List (String × ProcedureStage) :=
  [CONTEST_MENTION_STAGE, SUMMARY_CASE_CONFERENCE, SUMMARY_HEARING_STAGE].map
    (fun stage => (stage.name, stage))

/-- `MagistratesCourtProcedureChecker.evaluate_stage`: the provided mapping is
modelled as a total function reproducing `bool(provided.get(key))`; a lookup
failure on the stage name is the raised KeyError. -/
def evaluate_stage (stage_name : String) (provided : String → Bool) :
    Except String (List ChecklistItem) :=
  match procedureStages.lookup stage_name with
  | none => .error ("Unknown procedure stage: " ++ stage_name)
  | some stage => .ok (stage.items.filter (fun item => !provided item.key))

/-- `DISCLOSURE_COMPLIANCE_MATRIX` constant of court_knowledge.py. -/
def DISCLOSURE_COMPLIANCE_MATRIX : List (String × List ChecklistItem) :=
  [ ("prosecution",
     [ ⟨"informant_statement", "Copy of informant's statement",
        some "Criminal Procedure Act 2009 (Vic) s.187", none⟩,
       ⟨"witness_statements", "Copies of all witness statements",
        some "Criminal Procedure Act 2009 (Vic) s.187", none⟩,
       ⟨"exhibit_list", "List of exhibits",
        some "Criminal Procedure Act 2009 (Vic) s.187", none⟩,
       ⟨"accused_priors", "Accused's prior convictions",
        some "Criminal Procedure Act 2009 (Vic) s.187", none⟩,
       ⟨"exculpatory_material", "Any exculpatory material",
        some "Criminal Procedure Act 2009 (Vic) s.187", none⟩,
       ⟨"prosecution_timing", "Timing compliance",
        some "Criminal Procedure Act 2009 (Vic) s.186", none⟩ ]),
    ("defence",
     [ ⟨"alibi_notice", "Alibi notice (if applicable)",
        some "Criminal Procedure Act 2009 (Vic) s.185", none⟩,
       ⟨"expert_evidence_notice", "Expert evidence notice",
        some "Criminal Procedure Act 2009 (Vic) s.185", none⟩,
       ⟨"defence_witnesses", "Witnesses to be called",
        some "Criminal Procedure Act 2009 (Vic) s.185", none⟩,
       ⟨"defence_timing", "Timing compliance",
        some "Criminal Procedure Act 2009 (Vic) s.185", none⟩ ]) ]

/-- `evaluate_disclosure_section` of court_knowledge.py; a lookup failure on
the section name is the raised KeyError. -/
def evaluate_disclosure_section (sectionName : String) (provided : String → Bool) :
    Except String (List ChecklistItem) :=
  match DISCLOSURE_COMPLIANCE_MATRIX.lookup sectionName with
  | none => .error ("Unknown disclosure section: " ++ sectionName)
  | some items => .ok (items.filter (fun item => !provided item.key))

/-- Whether an Except value is a success. -/
def exceptOk {ε α : Type} : Except ε α → Bool
  | .ok _ => true
  | .error _ => false

/-- Concrete profile used by witnesses: nothing provided at all. -/
def sampleEmptyDoc : DocumentProfile :=
  { name := "Doc A",
    disclosure := { informant_statement_provided := false },
    preliminary_test := {},
    evidence := {} }

/-- Concrete profile used by witnesses: ambiguous but present authority,
one key date. -/
def sampleAmbiguousDoc : DocumentProfile :=
  { name := "Doc B",
    disclosure := { informant_statement_provided := true },
    preliminary_test :=
      { statutory_authority := some "RSA 1986 s.49(1)",
        authority_is_ambiguous := true },
    evidence := {},
    key_dates := [("offence", "2024-05-10")] }

/-- Concrete profile used by witnesses: same key date key, different value. -/
def sampleOtherDateDoc : DocumentProfile :=
  { name := "Doc C",
    disclosure := { informant_statement_provided := false },
    preliminary_test := {},
    evidence := {},
    key_dates := [("offence", "2024-05-11")] }

/-- Concrete profile used by witnesses: full mandatory disclosure. -/
def sampleDisclosedDoc : DocumentProfile :=
  { name := "Doc D",
    disclosure :=
      { informant_statement_provided := true,
        witness_statements := [⟨"Constable Lee", true, true, some "2024-05-01"⟩],
        prior_convictions_disclosed := true,
        physical_exhibit_list_provided := true },
    preliminary_test := {},
    evidence := {} }

theorem data_append_eq (s t : String) : (s ++ t).data = s.data ++ t.data := rfl

theorem head_append_eq (s t : String) (c : Char) (h : s.data.head? = some c) :
    (s ++ t).data.head? = some c := by
  cases hx : s.data with
  | nil => rw [hx] at h; simp at h
  | cons d ds =>
      rw [hx] at h
      rw [data_append_eq, hx]
      simpa using h

theorem string_ne_of_head (s t : String) (h : s.data.head? ≠ t.data.head?) : s ≠ t := by
  intro he
  exact h (he ▸ rfl)

theorem joinSep_cons_shape (sep x : String) (xs : List String) :
    ∃ r, joinSep sep (x :: xs) = x ++ r := by
  cases xs with
  | nil => exact ⟨"", (String.append_empty x).symm⟩
  | cons y ys =>
      exact ⟨sep ++ joinSep sep (y :: ys), by
        show x ++ sep ++ joinSep sep (y :: ys) = _
        rw [String.append_assoc]⟩

/-- Claim C8: `calibration_complete()` is true exactly when either the
calibration records list or the maintenance records list is non-empty, so
each list alone suffices (OR semantics, not AND). -/
theorem calibration_complete_or_semantics (p : PreliminaryTestRecord) :
    (p.calibration_complete = true ↔
      (p.calibration_records ≠ [] ∨ p.maintenance_records ≠ [])) ∧
    ({ p with maintenance_records := [] } : PreliminaryTestRecord).calibration_complete
      = decide (p.calibration_records ≠ []) ∧
    ({ p with calibration_records := [] } : PreliminaryTestRecord).calibration_complete
      = decide (p.maintenance_records ≠ []) := by
  refine ⟨?_, ?_, ?_⟩ <;> simp [PreliminaryTestRecord.calibration_complete]

/-- Claim C6: with no hearsay items and no documented hearsay review the EA_59
evaluator returns UNCLEAR, and for every profile whatsoever it never returns
NON_COMPLIANT. -/
theorem ea59_unclear_never_non_compliant :
    (∀ doc : DocumentProfile, doc.evidence.hearsay_items = [] →
        doc.evidence.hearsay_review_documented = false →
        (hearsay_flagged doc).status = ComplianceStatus.UNCLEAR) ∧
    (∀ doc : DocumentProfile,
        (hearsay_flagged doc).status ≠ ComplianceStatus.NON_COMPLIANT) := by
  constructor
  · intro doc h1 h2
    simp [hearsay_flagged, h1, h2]
  · intro doc
    unfold hearsay_flagged
    split <;> simp

/-- Claim C6 witness: the empty sample document evaluates to UNCLEAR. -/
theorem ea59_unclear_never_non_compliant_witness :
    (hearsay_flagged sampleEmptyDoc).status = ComplianceStatus.UNCLEAR :=
  ea59_unclear_never_non_compliant.1 sampleEmptyDoc rfl rfl

/-- Claim C5: an authority string that is non-empty after trimming combined
with the ambiguity flag makes RSA_AUTHORITY return UNCLEAR — never COMPLIANT —
whatever the rest of the profile contains. -/
theorem rsa_authority_ambiguous_unclear (doc : DocumentProfile) (s : String)
    (hsome : doc.preliminary_test.statutory_authority = some s)
    (htrim : pyStrip s ≠ "")
    (hambig : doc.preliminary_test.authority_is_ambiguous = true) :
    (statutory_authority doc).status = ComplianceStatus.UNCLEAR ∧
    (statutory_authority doc).status ≠ ComplianceStatus.COMPLIANT := by
  have hpresent : doc.preliminary_test.has_statutory_authority = true := by
    simp [PreliminaryTestRecord.has_statutory_authority, optStringPresent, hsome, htrim]
  constructor
  · simp [statutory_authority, hpresent, hambig]
  · simp [statutory_authority, hpresent, hambig]

/-- Claim C5 witness: the concrete ambiguous-authority document is UNCLEAR. -/
theorem rsa_authority_ambiguous_unclear_witness :
    (statutory_authority sampleAmbiguousDoc).status = ComplianceStatus.UNCLEAR ∧
    (statutory_authority sampleAmbiguousDoc).status ≠ ComplianceStatus.COMPLIANT :=
  rsa_authority_ambiguous_unclear sampleAmbiguousDoc "RSA 1986 s.49(1)" rfl
    (by decide) rfl

/-- Claim C1 counterexample: a profile tendering no business records at all is
evaluated by EA_69 to UNCLEAR, not COMPLIANT as the claim states. -/
theorem ea69_none_tendered_not_compliant :
    sampleEmptyDoc.evidence.business_records = [] ∧
    (business_records sampleEmptyDoc).status = ComplianceStatus.UNCLEAR ∧
    (business_records sampleEmptyDoc).status ≠ ComplianceStatus.COMPLIANT := by
  refine ⟨rfl, rfl, ?_⟩
  decide

/-- Claim C1 as amended: EA_69 returns UNCLEAR when no business records are
tendered, and NON_COMPLIANT whenever some tendered business-record entry lacks
an established foundation. -/
theorem ea69_unclear_or_non_compliant (doc : DocumentProfile) :
    (doc.evidence.business_records = [] →
      (business_records doc).status = ComplianceStatus.UNCLEAR) ∧
    (doc.evidence.business_records_without_foundation ≠ [] →
      (business_records doc).status = ComplianceStatus.NON_COMPLIANT) := by
  constructor
  · intro h
    simp [business_records, EvidenceProfile.business_records_without_foundation, h]
  · intro h
    simp [business_records, h]

/-- Claim C1 amended-claim witness at concrete inputs. -/
theorem ea69_unclear_or_non_compliant_witness :
    (business_records sampleEmptyDoc).status = ComplianceStatus.UNCLEAR :=
  (ea69_unclear_or_non_compliant sampleEmptyDoc).1 rfl

/-- Claim C2: for every pair of documents the cross-reference matrix has
exactly 15 rows, one per registry provision in registry-declared order, and
each per-document evaluation is a key-complete mapping carrying exactly the 15
registry keys, each exactly once. -/
theorem phase_b_matrix_registry_complete (doc_a doc_b : DocumentProfile) :
    ((build_phase_b_report doc_a doc_b).cross_reference_matrix.length = 15) ∧
    ((build_phase_b_report doc_a doc_b).cross_reference_matrix.map
        (fun row => row.statutory_provision) = PROVISIONS.map (fun p => p.label)) ∧
    ((evaluate_document doc_a).map Prod.fst = PROVISIONS.map (fun p => p.key)) ∧
    ((evaluate_document doc_b).map Prod.fst = PROVISIONS.map (fun p => p.key)) ∧
    ((PROVISIONS.map (fun p => p.key)).Nodup) ∧
    ((PROVISIONS.map (fun p => p.key)).length = 15) := by
  refine ⟨rfl, rfl, rfl, rfl, ?_, rfl⟩
  decide

theorem compliant_empty_disclosure_items (doc : DocumentProfile) :
    (disclosure_items doc).status = ComplianceStatus.COMPLIANT →
    (disclosure_items doc).missing_items = [] := by
  unfold disclosure_items
  try dsimp only
  repeat' split
  all_goals simp

theorem compliant_empty_statement_execution (doc : DocumentProfile) :
    (statement_execution doc).status = ComplianceStatus.COMPLIANT →
    (statement_execution doc).missing_items = [] := by
  unfold statement_execution
  try dsimp only
  repeat' split
  all_goals simp

theorem compliant_empty_disclosure_timing (doc : DocumentProfile) :
    (disclosure_timing doc).status = ComplianceStatus.COMPLIANT →
    (disclosure_timing doc).missing_items = [] := by
  unfold disclosure_timing
  try dsimp only
  repeat' split
  all_goals simp

theorem compliant_empty_exhibit_identification (doc : DocumentProfile) :
    (exhibit_identification doc).status = ComplianceStatus.COMPLIANT →
    (exhibit_identification doc).missing_items = [] := by
  unfold exhibit_identification
  try dsimp only
  repeat' split
  all_goals simp

theorem compliant_empty_statutory_authority (doc : DocumentProfile) :
    (statutory_authority doc).status = ComplianceStatus.COMPLIANT →
    (statutory_authority doc).missing_items = [] := by
  unfold statutory_authority
  try dsimp only
  repeat' split
  all_goals simp

theorem compliant_empty_reason_to_believe (doc : DocumentProfile) :
    (reason_to_believe doc).status = ComplianceStatus.COMPLIANT →
    (reason_to_believe doc).missing_items = [] := by
  unfold reason_to_believe
  try dsimp only
  repeat' split
  all_goals simp

theorem compliant_empty_directions_language (doc : DocumentProfile) :
    (directions_language doc).status = ComplianceStatus.COMPLIANT →
    (directions_language doc).missing_items = [] := by
  unfold directions_language
  try dsimp only
  repeat' split
  all_goals simp

theorem compliant_empty_oral_directions (doc : DocumentProfile) :
    (oral_directions doc).status = ComplianceStatus.COMPLIANT →
    (oral_directions doc).missing_items = [] := by
  unfold oral_directions
  try dsimp only
  repeat' split
  all_goals simp

theorem compliant_empty_proper_performance (doc : DocumentProfile) :
    (proper_performance doc).status = ComplianceStatus.COMPLIANT →
    (proper_performance doc).missing_items = [] := by
  unfold proper_performance
  try dsimp only
  repeat' split
  all_goals simp

theorem compliant_empty_evidentiary_test (doc : DocumentProfile) :
    (evidentiary_test doc).status = ComplianceStatus.COMPLIANT →
    (evidentiary_test doc).missing_items = [] := by
  unfold evidentiary_test
  try dsimp only
  repeat' split
  all_goals simp

theorem compliant_empty_hearsay_flagged (doc : DocumentProfile) :
    (hearsay_flagged doc).status = ComplianceStatus.COMPLIANT →
    (hearsay_flagged doc).missing_items = [] := by
  unfold hearsay_flagged
  try dsimp only
  repeat' split
  all_goals simp

theorem compliant_empty_hearsay_exceptions (doc : DocumentProfile) :
    (hearsay_exceptions doc).status = ComplianceStatus.COMPLIANT →
    (hearsay_exceptions doc).missing_items = [] := by
  unfold hearsay_exceptions
  try dsimp only
  repeat' split
  all_goals simp

theorem compliant_empty_business_records (doc : DocumentProfile) :
    (business_records doc).status = ComplianceStatus.COMPLIANT →
    (business_records doc).missing_items = [] := by
  unfold business_records
  try dsimp only
  repeat' split
  all_goals simp

theorem compliant_empty_section_137 (doc : DocumentProfile) :
    (section_137 doc).status = ComplianceStatus.COMPLIANT →
    (section_137 doc).missing_items = [] := by
  unfold section_137
  try dsimp only
  repeat' split
  all_goals simp

theorem compliant_empty_section_138 (doc : DocumentProfile) :
    (section_138 doc).status = ComplianceStatus.COMPLIANT →
    (section_138 doc).missing_items = [] := by
  unfold section_138
  try dsimp only
  repeat' split
  all_goals simp

/-- Claim C10: whichever registry evaluator is applied to whichever profile,
a COMPLIANT result always carries an empty missing_items list. -/
theorem compliant_status_has_no_missing_items (doc : DocumentProfile)
    (p : StatutoryProvision) (hp : p ∈ PROVISIONS)
    (h : (p.checker doc).status = ComplianceStatus.COMPLIANT) :
    (p.checker doc).missing_items = [] := by
  simp only [PROVISIONS, List.mem_cons, List.not_mem_nil, or_false] at hp
  rcases hp with rfl | rfl | rfl | rfl | rfl | rfl | rfl | rfl | rfl | rfl | rfl
    | rfl | rfl | rfl | rfl
  · exact compliant_empty_disclosure_items doc h
  · exact compliant_empty_statement_execution doc h
  · exact compliant_empty_disclosure_timing doc h
  · exact compliant_empty_exhibit_identification doc h
  · exact compliant_empty_statutory_authority doc h
  · exact compliant_empty_reason_to_believe doc h
  · exact compliant_empty_directions_language doc h
  · exact compliant_empty_oral_directions doc h
  · exact compliant_empty_proper_performance doc h
  · exact compliant_empty_evidentiary_test doc h
  · exact compliant_empty_hearsay_flagged doc h
  · exact compliant_empty_hearsay_exceptions doc h
  · exact compliant_empty_business_records doc h
  · exact compliant_empty_section_137 doc h
  · exact compliant_empty_section_138 doc h

/-- Claim C10 witness: the first registry provision on the fully disclosed
sample profile is COMPLIANT and carries no missing items. -/
theorem compliant_status_has_no_missing_items_witness :
    ((⟨"CPA_DISCLOSURE", "CPA 2009 Part 3.3 – Disclosure package", disclosure_items⟩ :
        StatutoryProvision).checker sampleDisclosedDoc).missing_items = [] :=
  compliant_status_has_no_missing_items sampleDisclosedDoc _
    (by unfold PROVISIONS; exact List.mem_cons_self _ _) (by decide)

theorem lookup_string_mem_keys {β : Type} (l : List (String × β)) (k : String) (v : β)
    (h : l.lookup k = some v) : k ∈ l.map Prod.fst := by
  induction l with
  | nil => simp [List.lookup] at h
  | cons kv t ih =>
      obtain ⟨k', v'⟩ := kv
      by_cases hk : k = k'
      · simp [hk]
      · have hbeq : (k == k') = false := beq_eq_false_iff_ne.mpr hk
        simp only [List.lookup, hbeq] at h
        simpa using Or.inr (ih h)

/-- Claim C9: `evaluate_stage` fails (the raised KeyError) exactly when the
stage name is not one of the three known stages, `evaluate_disclosure_section`
fails exactly when the section is neither prosecution nor defence, and for
known names each returns the filtered missing-items list without error. -/
theorem lookup_failures_are_keyerrors :
    (∀ (stage_name : String) (provided : String → Bool),
        exceptOk (evaluate_stage stage_name provided) = true ↔
          (stage_name = "contest_mention" ∨ stage_name = "summary_case_conference" ∨
            stage_name = "summary_hearing")) ∧
    (∀ (sectionName : String) (provided : String → Bool),
        exceptOk (evaluate_disclosure_section sectionName provided) = true ↔
          (sectionName = "prosecution" ∨ sectionName = "defence")) ∧
    (∀ (stage_name : String) (provided : String → Bool) (stage : ProcedureStage),
        procedureStages.lookup stage_name = some stage →
        evaluate_stage stage_name provided =
          Except.ok (stage.items.filter (fun item => !provided item.key))) ∧
    (∀ (sectionName : String) (provided : String → Bool) (items : List ChecklistItem),
        DISCLOSURE_COMPLIANCE_MATRIX.lookup sectionName = some items →
        evaluate_disclosure_section sectionName provided =
          Except.ok (items.filter (fun item => !provided item.key))) := by
  refine ⟨?_, ?_, ?_, ?_⟩
  · intro stage_name provided
    unfold evaluate_stage
    cases hl : procedureStages.lookup stage_name with
    | none =>
        simp only [exceptOk]
        constructor
        · intro h; cases h
        · rintro (rfl | rfl | rfl) <;> exact absurd hl (by decide)
    | some stage =>
        simp only [exceptOk, true_iff]
        have hmem := lookup_string_mem_keys _ _ _ hl
        simpa [procedureStages, CONTEST_MENTION_STAGE, SUMMARY_CASE_CONFERENCE,
          SUMMARY_HEARING_STAGE] using hmem
  · intro sectionName provided
    unfold evaluate_disclosure_section
    cases hl : DISCLOSURE_COMPLIANCE_MATRIX.lookup sectionName with
    | none =>
        simp only [exceptOk]
        constructor
        · intro h; cases h
        · rintro (rfl | rfl) <;> exact absurd hl (by decide)
    | some items =>
        simp only [exceptOk, true_iff]
        have hmem := lookup_string_mem_keys _ _ _ hl
        simpa [DISCLOSURE_COMPLIANCE_MATRIX] using hmem
  · intro stage_name provided stage h
    simp only [evaluate_stage, h]
  · intro sectionName provided items h
    simp only [evaluate_disclosure_section, h]

/-- Claim C9 witness: the contest-mention stage with nothing provided returns
all its checklist items as missing, without error. -/
theorem lookup_failures_are_keyerrors_witness :
    evaluate_stage "contest_mention" (fun _ => false) =
      Except.ok CONTEST_MENTION_STAGE.items := by
  have h := lookup_failures_are_keyerrors.2.2.1 "contest_mention" (fun _ => false)
    CONTEST_MENTION_STAGE (by decide)
  simpa using h

theorem ne_empty_of_head (s : String) (c : Char) (h : s.data.head? = some c) : s ≠ "" := by
  apply string_ne_of_head
  rw [h]
  simp

theorem ne_none_of_head (s : String) (c : Char) (h : s.data.head? = some c)
    (hc : c ≠ 'N') : s ≠ "None" := by
  apply string_ne_of_head
  rw [h]
  have hn : ("None" : String).data.head? = some 'N' := rfl
  rw [hn]
  simp [hc]

theorem action_required_compliant (label : String) (status : CheckStatus)
    (h : status.status = ComplianceStatus.COMPLIANT) :
    action_required label status = "" := by
  unfold action_required
  rw [if_pos h]

theorem action_required_head (label : String) (status : CheckStatus) (c : Char)
    (hc : label.data.head? = some c) (h : status.status ≠ ComplianceStatus.COMPLIANT) :
    (action_required label status).data.head? = some c := by
  unfold action_required
  rw [if_neg h]
  dsimp only
  split
  · exact head_append_eq _ _ _ (head_append_eq _ _ _ (head_append_eq _ _ _
      (head_append_eq _ _ _ hc)))
  · exact head_append_eq _ _ _ (head_append_eq _ _ _ (head_append_eq _ _ _
      (head_append_eq _ _ _ hc)))

theorem joinSep_head (sep x : String) (xs : List String) (c : Char)
    (hc : x.data.head? = some c) :
    (joinSep sep (x :: xs)).data.head? = some c := by
  obtain ⟨r, hr⟩ := joinSep_cons_shape sep x xs
  rw [hr]
  exact head_append_eq _ _ _ hc

theorem row_action_core (sa sb : CheckStatus) :
    ((if ([action_required "Doc A" sa, action_required "Doc B" sb].filter
          (fun action => action ≠ "")) ≠ [] then
        joinSep " | " ([action_required "Doc A" sa, action_required "Doc B" sb].filter
          (fun action => action ≠ ""))
      else "None") = "None") ↔
      (sa.status = ComplianceStatus.COMPLIANT ∧ sb.status = ComplianceStatus.COMPLIANT) := by
  by_cases ha : sa.status = ComplianceStatus.COMPLIANT
  · by_cases hb : sb.status = ComplianceStatus.COMPLIANT
    · rw [action_required_compliant _ _ ha, action_required_compliant _ _ hb]
      simp [ha, hb]
    · have hdB : (action_required "Doc B" sb).data.head? = some 'D' :=
        action_required_head _ _ _ rfl hb
      have hne : action_required "Doc B" sb ≠ "" := ne_empty_of_head _ _ hdB
      rw [action_required_compliant _ _ ha]
      have hfil : ([(""), action_required "Doc B" sb].filter (fun action => action ≠ "")) =
          [action_required "Doc B" sb] := by
        simp [List.filter, hne]
      rw [hfil]
      have : joinSep " | " [action_required "Doc B" sb] = action_required "Doc B" sb := rfl
      rw [this]
      simp only [hb, and_false, iff_false]
      intro hcontra
      exact ne_none_of_head _ _ hdB (by decide) (by simpa using hcontra)
  · have hdA : (action_required "Doc A" sa).data.head? = some 'D' :=
      action_required_head _ _ _ rfl ha
    have hneA : action_required "Doc A" sa ≠ "" := ne_empty_of_head _ _ hdA
    have hshape : ∃ rest, ([action_required "Doc A" sa, action_required "Doc B" sb].filter
        (fun action => action ≠ "")) = action_required "Doc A" sa :: rest := by
      by_cases hb' : action_required "Doc B" sb = ""
      · exact ⟨[], by simp [List.filter, hneA, hb']⟩
      · exact ⟨[action_required "Doc B" sb], by simp [List.filter, hneA, hb']⟩
    obtain ⟨rest, hrest⟩ := hshape
    rw [hrest]
    have hjoin : (joinSep " | " (action_required "Doc A" sa :: rest)).data.head? = some 'D' :=
      joinSep_head _ _ _ _ hdA
    simp only [ha, false_and, iff_false]
    have hcons : (action_required "Doc A" sa :: rest) ≠ [] := by simp
    rw [if_pos hcons]
    exact ne_none_of_head _ _ hjoin (by decide)

theorem headI_mem {α : Type} [Inhabited α] (l : List α) (h : l ≠ []) : l.headI ∈ l := by
  cases l with
  | nil => exact absurd rfl h
  | cons a t => simp

/-- Claim C3: in every cross-reference row for any pair of documents,
action_required is the literal "None" exactly when both per-document statuses
are COMPLIANT. -/
theorem action_required_none_iff_both_compliant (doc_a doc_b : DocumentProfile)
    (row : CrossReferenceRow)
    (hrow : row ∈ (build_phase_b_report doc_a doc_b).cross_reference_matrix) :
    (row.action_required = "None" ↔
      (row.doc_a.status = ComplianceStatus.COMPLIANT ∧
        row.doc_b.status = ComplianceStatus.COMPLIANT)) := by
  obtain ⟨p, hp, rfl⟩ := List.mem_map.mp hrow
  exact row_action_core (p.checker doc_a) (p.checker doc_b)

/-- Claim C3 witness: the first row of the matrix for two empty profiles. -/
theorem action_required_none_iff_both_compliant_witness :
    ((build_phase_b_report sampleEmptyDoc sampleEmptyDoc).cross_reference_matrix.headI.action_required
        = "None" ↔
      ((build_phase_b_report sampleEmptyDoc sampleEmptyDoc).cross_reference_matrix.headI.doc_a.status
          = ComplianceStatus.COMPLIANT ∧
        (build_phase_b_report sampleEmptyDoc sampleEmptyDoc).cross_reference_matrix.headI.doc_b.status
          = ComplianceStatus.COMPLIANT)) :=
  action_required_none_iff_both_compliant sampleEmptyDoc sampleEmptyDoc _
    (headI_mem _ (by simp [build_phase_b_report, build_cross_reference, PROVISIONS]))

theorem sortedSymmDiff_eq_nil_iff (a b : List String) :
    sortedSymmDiff a b = [] ↔ (∀ x, x ∈ a ↔ x ∈ b) := by
  unfold sortedSymmDiff
  constructor
  · intro h
    have hperm := List.perm_insertionSort (fun x y : String => x ≤ y)
      (((a.filter fun x => decide (x ∉ b)) ++ (b.filter fun x => decide (x ∉ a))).dedup)
    rw [h] at hperm
    have hd := hperm.symm.eq_nil
    rw [List.dedup_eq_nil, List.append_eq_nil] at hd
    obtain ⟨h1, h2⟩ := hd
    rw [List.filter_eq_nil_iff] at h1 h2
    intro x
    constructor
    · intro hx
      by_contra hxb
      exact (h1 x hx) (by simpa using hxb)
    · intro hx
      by_contra hxa
      exact (h2 x hx) (by simpa using hxa)
  · intro h
    have h1 : a.filter (fun x => decide (x ∉ b)) = [] := by
      rw [List.filter_eq_nil_iff]
      intro x hx
      simpa using (h x).mp hx
    have h2 : b.filter (fun x => decide (x ∉ a)) = [] := by
      rw [List.filter_eq_nil_iff]
      intro x hx
      simpa using (h x).mpr hx
    rw [h1, h2]
    rfl

theorem row_discrepancy_core (sa sb : CheckStatus) :
    (summarise_discrepancies sa sb = "None" ↔
      (sa.status = sb.status ∧
        ∀ x, x ∈ sa.missing_items ↔ x ∈ sb.missing_items)) := by
  unfold summarise_discrepancies
  dsimp only
  by_cases hst : sa.status = sb.status
  · have hpart1 : (if sa.status ≠ sb.status then
        ["Status differs (Doc A: " ++ sa.status.colour ++ ", Doc B: " ++
          sb.status.colour ++ ")"]
      else []) = ([] : List String) := if_neg (fun hcon => hcon hst)
    by_cases hdiff : sortedSymmDiff sa.missing_items sb.missing_items = []
    · have hpart2 : (if sortedSymmDiff sa.missing_items sb.missing_items ≠ [] then
          ["Missing elements differ: " ++
            joinSep ", " (sortedSymmDiff sa.missing_items sb.missing_items)]
        else []) = ([] : List String) := if_neg (fun hcon => hcon hdiff)
      rw [hpart1, hpart2, List.nil_append, if_neg (fun hcon => hcon rfl)]
      simp [hst, (sortedSymmDiff_eq_nil_iff _ _).mp hdiff]
    · have hpart2 : (if sortedSymmDiff sa.missing_items sb.missing_items ≠ [] then
          ["Missing elements differ: " ++
            joinSep ", " (sortedSymmDiff sa.missing_items sb.missing_items)]
        else []) = ["Missing elements differ: " ++
          joinSep ", " (sortedSymmDiff sa.missing_items sb.missing_items)] := if_pos hdiff
      rw [hpart1, hpart2, List.nil_append,
        if_pos (by simp : ¬(["Missing elements differ: " ++
          joinSep ", " (sortedSymmDiff sa.missing_items sb.missing_items)] = []))]
      have hone : joinSep "; " ["Missing elements differ: " ++
          joinSep ", " (sortedSymmDiff sa.missing_items sb.missing_items)] =
          "Missing elements differ: " ++
            joinSep ", " (sortedSymmDiff sa.missing_items sb.missing_items) := rfl
      rw [hone]
      have hL : ("Missing elements differ: " ++
          joinSep ", " (sortedSymmDiff sa.missing_items sb.missing_items)) ≠ "None" :=
        ne_none_of_head _ 'M' (head_append_eq _ _ _ rfl) (by decide)
      constructor
      · intro h
        exact absurd h hL
      · rintro ⟨-, hmem⟩
        exact absurd ((sortedSymmDiff_eq_nil_iff _ _).mpr hmem) hdiff
  · have hpart1 : (if sa.status ≠ sb.status then
        ["Status differs (Doc A: " ++ sa.status.colour ++ ", Doc B: " ++
          sb.status.colour ++ ")"]
      else []) = ["Status differs (Doc A: " ++ sa.status.colour ++ ", Doc B: " ++
        sb.status.colour ++ ")"] := if_pos hst
    rw [hpart1, List.singleton_append,
      if_pos (List.cons_ne_nil _ _)]
    have hS : ("Status differs (Doc A: " ++ sa.status.colour ++ ", Doc B: " ++
        sb.status.colour ++ ")").data.head? = some 'S' :=
      head_append_eq _ _ _ (head_append_eq _ _ _ (head_append_eq _ _ _
        (head_append_eq _ _ _ rfl)))
    have hL : joinSep "; "
        (("Status differs (Doc A: " ++ sa.status.colour ++ ", Doc B: " ++
            sb.status.colour ++ ")") ::
          (if sortedSymmDiff sa.missing_items sb.missing_items ≠ [] then
            ["Missing elements differ: " ++
              joinSep ", " (sortedSymmDiff sa.missing_items sb.missing_items)]
          else [])) ≠ "None" :=
      ne_none_of_head _ 'S' (joinSep_head "; " _ _ 'S' hS) (by decide)
    constructor
    · intro h
      exact absurd h hL
    · rintro ⟨hstEq, -⟩
      exact absurd hstEq hst

theorem summarise_eq_join (sa sb : CheckStatus)
    (h : summarise_discrepancies sa sb ≠ "None") :
    summarise_discrepancies sa sb = joinSep "; "
      ((if sa.status ≠ sb.status then
          ["Status differs (Doc A: " ++ sa.status.colour ++ ", Doc B: " ++
            sb.status.colour ++ ")"]
        else []) ++
       (if sortedSymmDiff sa.missing_items sb.missing_items ≠ [] then
          ["Missing elements differ: " ++
            joinSep ", " (sortedSymmDiff sa.missing_items sb.missing_items)]
        else [])) := by
  revert h
  unfold summarise_discrepancies
  dsimp only
  by_cases hp : ((if sa.status ≠ sb.status then
      ["Status differs (Doc A: " ++ sa.status.colour ++ ", Doc B: " ++
        sb.status.colour ++ ")"]
    else []) ++
    (if sortedSymmDiff sa.missing_items sb.missing_items ≠ [] then
      ["Missing elements differ: " ++
        joinSep ", " (sortedSymmDiff sa.missing_items sb.missing_items)]
    else [])) = []
  · rw [if_neg (fun hcon => hcon hp)]
    intro h
    exact absurd rfl h
  · rw [if_pos hp]
    intro _
    rfl

/-- Claim C4: in every cross-reference row the discrepancies string is "None"
exactly when the statuses agree and the missing-item sets coincide (empty
symmetric difference); otherwise it is the semicolon-joined description built
from the colour-coded status mismatch and the sorted symmetric difference,
which is characterised as sorted and as holding exactly the one-sided
missing items. -/
theorem discrepancies_none_iff_symmetric (doc_a doc_b : DocumentProfile)
    (row : CrossReferenceRow)
    (hrow : row ∈ (build_phase_b_report doc_a doc_b).cross_reference_matrix) :
    (row.discrepancies = "None" ↔
      (row.doc_a.status = row.doc_b.status ∧
        ∀ x, x ∈ row.doc_a.missing_items ↔ x ∈ row.doc_b.missing_items)) ∧
    (row.discrepancies ≠ "None" →
      row.discrepancies = joinSep "; "
        ((if row.doc_a.status ≠ row.doc_b.status then
            ["Status differs (Doc A: " ++ row.doc_a.status.colour ++ ", Doc B: " ++
              row.doc_b.status.colour ++ ")"]
          else []) ++
         (if sortedSymmDiff row.doc_a.missing_items row.doc_b.missing_items ≠ [] then
            ["Missing elements differ: " ++
              joinSep ", " (sortedSymmDiff row.doc_a.missing_items row.doc_b.missing_items)]
          else []))) ∧
    ((sortedSymmDiff row.doc_a.missing_items row.doc_b.missing_items).Sorted
      (fun x y => x ≤ y)) ∧
    (∀ x, x ∈ sortedSymmDiff row.doc_a.missing_items row.doc_b.missing_items ↔
      ((x ∈ row.doc_a.missing_items ∧ x ∉ row.doc_b.missing_items) ∨
        (x ∈ row.doc_b.missing_items ∧ x ∉ row.doc_a.missing_items))) := by
  obtain ⟨p, hp, rfl⟩ := List.mem_map.mp hrow
  refine ⟨row_discrepancy_core _ _, fun h => summarise_eq_join _ _ h, ?_, ?_⟩
  · exact List.sorted_insertionSort _ _
  · intro x
    unfold sortedSymmDiff
    rw [(List.perm_insertionSort _ _).mem_iff]
    simp [List.mem_dedup, List.mem_append, List.mem_filter]

/-- Claim C4 witness: the first row of the matrix for the empty and the
disclosed sample profiles. -/
theorem discrepancies_none_iff_symmetric_witness :
    ((build_phase_b_report sampleEmptyDoc sampleDisclosedDoc).cross_reference_matrix.headI.discrepancies
        = "None" ↔
      ((build_phase_b_report sampleEmptyDoc sampleDisclosedDoc).cross_reference_matrix.headI.doc_a.status
          = (build_phase_b_report sampleEmptyDoc sampleDisclosedDoc).cross_reference_matrix.headI.doc_b.status ∧
        ∀ x, x ∈ (build_phase_b_report sampleEmptyDoc sampleDisclosedDoc).cross_reference_matrix.headI.doc_a.missing_items ↔
          x ∈ (build_phase_b_report sampleEmptyDoc sampleDisclosedDoc).cross_reference_matrix.headI.doc_b.missing_items)) :=
  (discrepancies_none_iff_symmetric sampleEmptyDoc sampleDisclosedDoc _
    (headI_mem _ (by simp [build_phase_b_report, build_cross_reference, PROVISIONS]))).1

theorem foldl_add_medium (l : List Defect) (r : DefectReport) :
    (l.foldl DefectReport.add r).medium =
      r.medium ++ l.filter (fun d => decide (d.severity = Severity.MEDIUM)) := by
  induction l generalizing r with
  | nil => simp
  | cons d t ih =>
      rw [List.foldl_cons, ih]
      cases hd : d.severity <;>
        simp [DefectReport.add, hd, List.filter_cons]

theorem cross_date_entries_medium (doc_a doc_b : DocumentProfile) :
    ∀ e ∈ cross_date_entries doc_a doc_b, e.2.severity = Severity.MEDIUM := by
  intro e he
  unfold cross_date_entries at he
  rw [List.mem_filterMap] at he
  obtain ⟨k, hk, hf⟩ := he
  cases hla : doc_a.key_dates.lookup k with
  | none => rw [hla] at hf; simp at hf
  | some da =>
      cases hlb : doc_b.key_dates.lookup k with
      | none => rw [hla, hlb] at hf; simp at hf
      | some db =>
          rw [hla, hlb] at hf
          dsimp only at hf
          split at hf
          · rw [Option.some_inj] at hf
            rw [← hf]
            rfl
          · simp at hf

theorem lookup_isSome_iff (l : List (String × String)) (k : String) :
    (l.lookup k).isSome = true ↔ k ∈ l.map Prod.fst := by
  induction l with
  | nil => simp [List.lookup]
  | cons kv t ih =>
      obtain ⟨k', v'⟩ := kv
      by_cases hk : k = k'
      · subst hk
        simp [List.lookup]
      · have hbeq : (k == k') = false := beq_eq_false_iff_ne.mpr hk
        simp [List.lookup, hbeq, ih, hk]

theorem shared_date_keys_nodup (doc_a doc_b : DocumentProfile) :
    (shared_date_keys doc_a doc_b).Nodup := by
  unfold shared_date_keys
  exact ((List.perm_insertionSort _ _).nodup_iff).mpr (List.nodup_dedup _)

theorem mem_shared_date_keys (doc_a doc_b : DocumentProfile) (k : String) :
    k ∈ shared_date_keys doc_a doc_b ↔
      (k ∈ doc_a.key_dates.map Prod.fst ∧ k ∈ doc_b.key_dates.map Prod.fst) := by
  unfold shared_date_keys
  rw [(List.perm_insertionSort _ _).mem_iff]
  simp [List.mem_dedup, List.mem_filter]

theorem countP_filterMap_key {β : Type} (f : String → Option (String × β))
    (hf : ∀ k e, f k = some e → e.1 = k) (keys : List String) (hnd : keys.Nodup)
    (k : String) :
    ((keys.filterMap f).countP (fun e => e.1 == k)) =
      if k ∈ keys ∧ (f k).isSome then 1 else 0 := by
  induction keys with
  | nil => simp
  | cons a t ih =>
      rw [List.nodup_cons] at hnd
      obtain ⟨hat, hndt⟩ := hnd
      cases hfa : f a with
      | none =>
          rw [List.filterMap_cons_none hfa, ih hndt]
          by_cases hak : a = k
          · subst hak
            simp [hat, hfa]
          · simp [hak, Ne.symm hak]
      | some e =>
          rw [List.filterMap_cons_some hfa, List.countP_cons, ih hndt]
          have he1 : e.1 = a := hf a e hfa
          by_cases hak : a = k
          · subst hak
            simp [hat, hfa, he1]
          · have hb : (e.1 == k) = false := by
              rw [he1]
              exact beq_eq_false_iff_ne.mpr hak
            simp [hb, hak, Ne.symm hak]

theorem identify_defects_medium_eq (doc_a doc_b : DocumentProfile) :
    (identify_defects doc_a doc_b).medium =
      (identify_doc_defects doc_a).filter (fun d => decide (d.severity = Severity.MEDIUM)) ++
      (identify_doc_defects doc_b).filter (fun d => decide (d.severity = Severity.MEDIUM)) ++
      (cross_date_entries doc_a doc_b).map Prod.snd := by
  unfold identify_defects
  dsimp only
  rw [foldl_add_medium, foldl_add_medium, foldl_add_medium]
  have hcross : ((cross_date_entries doc_a doc_b).map Prod.snd).filter
      (fun d => decide (d.severity = Severity.MEDIUM)) =
      (cross_date_entries doc_a doc_b).map Prod.snd := by
    rw [List.filter_eq_self]
    intro d hd
    rw [List.mem_map] at hd
    obtain ⟨e, he, rfl⟩ := hd
    simp [cross_date_entries_medium doc_a doc_b e he]
  rw [hcross]
  simp [List.append_assoc]

/-- Claim C7: the medium defect list is the two per-document batteries followed
by exactly the cross-document date defects; for each key the cross-document
loop emits exactly one entry precisely when the key is present in both
key-dates mappings with non-empty, textually different values (and the emitted
defect is attributed to "Doc A & Doc B" naming the key and both values),
and emits nothing otherwise. -/
theorem cross_date_defect_per_key (doc_a doc_b : DocumentProfile) (k : String) :
    ((identify_defects doc_a doc_b).medium =
      (identify_doc_defects doc_a).filter (fun d => decide (d.severity = Severity.MEDIUM)) ++
      (identify_doc_defects doc_b).filter (fun d => decide (d.severity = Severity.MEDIUM)) ++
      (cross_date_entries doc_a doc_b).map Prod.snd) ∧
    ((cross_date_entries doc_a doc_b).countP (fun e => e.1 == k) =
      match doc_a.key_dates.lookup k, doc_b.key_dates.lookup k with
      | some date_a, some date_b =>
          if date_a ≠ "" ∧ date_b ≠ "" ∧ date_a ≠ date_b then 1 else 0
      | _, _ => 0) ∧
    (∀ date_a date_b, doc_a.key_dates.lookup k = some date_a →
        doc_b.key_dates.lookup k = some date_b →
        date_a ≠ "" → date_b ≠ "" → date_a ≠ date_b →
        (k, crossDateDefect k date_a date_b) ∈ cross_date_entries doc_a doc_b) := by
  refine ⟨identify_defects_medium_eq doc_a doc_b, ?_, ?_⟩
  · have hf : ∀ (k' : String) (e : String × Defect),
        (fun k' =>
          match doc_a.key_dates.lookup k', doc_b.key_dates.lookup k' with
          | some date_a, some date_b =>
              if date_a ≠ "" ∧ date_b ≠ "" ∧ date_a ≠ date_b then
                some (k', crossDateDefect k' date_a date_b)
              else none
          | _, _ => none) k' = some e → e.1 = k' := by
      intro k' e he
      dsimp only at he
      cases hla : doc_a.key_dates.lookup k' with
      | none => rw [hla] at he; simp at he
      | some da =>
          cases hlb : doc_b.key_dates.lookup k' with
          | none => rw [hla, hlb] at he; simp at he
          | some db =>
              rw [hla, hlb] at he
              dsimp only at he
              split at he
              · rw [Option.some_inj] at he
                rw [← he]
              · simp at he
    unfold cross_date_entries
    rw [countP_filterMap_key _ hf _ (shared_date_keys_nodup doc_a doc_b) k]
    simp only [mem_shared_date_keys]
    cases hla : doc_a.key_dates.lookup k with
    | none =>
        have hmem : k ∉ doc_a.key_dates.map Prod.fst := by
          rw [← lookup_isSome_iff, hla]
          simp
        simp [hmem]
    | some da =>
        cases hlb : doc_b.key_dates.lookup k with
        | none =>
            have hmem : k ∉ doc_b.key_dates.map Prod.fst := by
              rw [← lookup_isSome_iff, hlb]
              simp
            simp [hmem]
        | some db =>
            have hmema : k ∈ doc_a.key_dates.map Prod.fst := by
              rw [← lookup_isSome_iff, hla]; rfl
            have hmemb : k ∈ doc_b.key_dates.map Prod.fst := by
              rw [← lookup_isSome_iff, hlb]; rfl
            by_cases hcond : da ≠ "" ∧ db ≠ "" ∧ da ≠ db
            · simp [hmema, hmemb, hla, hlb, hcond]
            · simp [hmema, hmemb, hla, hlb, hcond]
  · intro da db h1 h2 h3 h4 h5
    unfold cross_date_entries
    rw [List.mem_filterMap]
    refine ⟨k, ?_, ?_⟩
    · rw [mem_shared_date_keys]
      constructor
      · rw [← lookup_isSome_iff, h1]; rfl
      · rw [← lookup_isSome_iff, h2]; rfl
    · dsimp only
      rw [h1, h2]
      dsimp only
      rw [if_pos ⟨h3, h4, h5⟩]

/-- Claim C7 witness: the shared "offence" key with differing non-empty dates
yields the cross-document defect entry. -/
theorem cross_date_defect_per_key_witness :
    ("offence", crossDateDefect "offence" "2024-05-10" "2024-05-11") ∈
      cross_date_entries sampleAmbiguousDoc sampleOtherDateDoc :=
  (cross_date_defect_per_key sampleAmbiguousDoc sampleOtherDateDoc "offence").2.2
    "2024-05-10" "2024-05-11" (by decide) (by decide) (by decide) (by decide) (by decide)
